import Mathlib

/-!
Verification development for the casebuddy repository.

Shallow embedding of the core logic:
* `lib/adminConfig.ts` — admin allow-list check,
* `lib/feedbackService.ts` (`FeedbackService`) — the rate-limited, cached,
  idempotent AI-feedback pipeline, including the regex-based feedback parser,
* `pages/api/similar-cases.ts` — similarity query handler (self-exclusion,
  truncation),
* `lib/vectordb.ts` (`VectorDBService.findSimilarCases`) — client-side
  similarity lookup,
* `components/SimilarCases.tsx` (`fetchSimilarCases`) — cache tiers and
  fallback,
* the two `indexAllCases` variants of `AdminVectorDB`.

External I/O (Firestore reads, the Gemini call, fetch outcomes) is passed in
explicitly as `Except`/parameter values; store mutation is explicit state
passing on a `Store` value.
-/

namespace CaseBuddy

/-! ## adminConfig.ts -/

/-- `ADMIN_EMAILS` from `lib/adminConfig.ts`. -/
def ADMIN_EMAILS : List String :=
  ["ithatejesh@gmail.com", "ivsntejesh@gmail.com"]

/-- `email.toLowerCase()`, character by character. -/
def jsToLowerCase (s : String) : String :=
  ⟨s.data.map Char.toLower⟩

/-- `isUserAdmin(email)`: falsy email (null/undefined/empty) is not admin;
otherwise membership of the lower-cased email in `ADMIN_EMAILS`. -/
def isUserAdmin : Option String → Bool
  | none => false
  | some email =>
    if email = "" then false else ADMIN_EMAILS.contains (jsToLowerCase email)

/-! ## JS string primitives used by the feedback parser

The parser in `FeedbackService` works with JavaScript regexes; we embed the
semantics of the exact patterns it uses, over `List Char`. -/

/-- JS `\s` (whitespace class), restricted to the code points that can occur
in this pipeline's text: space, tab, LF, VT, FF, CR, NBSP, BOM. -/
def isJsSpace (c : Char) : Bool :=
  c = ' ' || c = '\t' || c = '\n' || c = '\r' ||
  c.val = 11 || c.val = 12 || c.val = 0xA0 || c.val = 0xFEFF

/-- JS `\d` (ASCII digit). -/
def isJsDigit (c : Char) : Bool :=
  '0' ≤ c && c ≤ '9'

/-- `trim()` on a character list: strip JS whitespace from both ends. -/
def trimChars (l : List Char) : List Char :=
  ((l.dropWhile isJsSpace).reverse.dropWhile isJsSpace).reverse

/-- `String.prototype.trim()`. -/
def jsTrim (s : String) : String :=
  ⟨trimChars s.data⟩

/-- `text.split('\n')`: split at every newline, keeping empty segments. -/
def splitLinesAux (acc : List Char) : List Char → List (List Char)
  | [] => [acc.reverse]
  | c :: rest =>
    if c = '\n' then acc.reverse :: splitLinesAux [] rest
    else splitLinesAux (c :: acc) rest

/-- `text.split('\n')` over a character list. -/
def splitLines (l : List Char) : List (List Char) :=
  splitLinesAux [] l

/-- Case-insensitive literal match at the head of `s` (the `/i` flag):
returns the remainder after the literal when it matches. The consumed
characters are then the first `label.length` characters of `s`. -/
def matchLitCI : List Char → List Char → Option (List Char)
  | [], s => some s
  | _ :: _, [] => none
  | p :: ps, c :: cs =>
    if p.toLower = c.toLower then matchLitCI ps cs else none

/-- Match the heading alternation `(?:N\.\s*LABEL|LABEL)` at the head of `s`
(alternative order as in the source pattern); returns consumed text and rest. -/
def matchHeadingAt (num : Char) (label : List Char) (s : List Char) :
    Option (List Char × List Char) :=
  let bare : Option (List Char × List Char) :=
    match matchLitCI label s with
    | some rest => some (s.take label.length, rest)
    | none => none
  match s with
  | c :: '.' :: s1 =>
    if c = num then
      let s2 := s1.dropWhile isJsSpace
      match matchLitCI label s2 with
      | some rest =>
        some (c :: '.' :: (s1.takeWhile isJsSpace ++ s2.take label.length), rest)
      | none => bare
    else bare
  | _ => bare

/-- Leftmost occurrence of the heading alternation: JS regex scanning.
Returns the scanned-over text, the heading's consumed text, and the rest. -/
def findHeading (num : Char) (label : List Char) :
    List Char → Option (List Char × List Char)
  | [] => none
  | c :: rest =>
    match matchHeadingAt num label (c :: rest) with
    | some r => some r
    | none => findHeading num label rest

/-- The lazy tail `[\s\S]*?(?=(?:\d\.|$))`: shortest prefix up to (excluding)
the first position where a digit is immediately followed by `.`, or all of the
input when no such position exists (the `$` alternative). -/
def takeToDigitDot : List Char → List Char
  | [] => []
  | [c] => [c]
  | c :: d :: rest =>
    if isJsDigit c && d = '.' then []
    else c :: takeToDigitDot (d :: rest)

/-- `content.match(/(?:N\.\s*LABEL|LABEL)[\s\S]*?(?=(?:\d\.|$))/i)`:
the full matched substring, or `none` when the heading does not occur. -/
def sectionMatch (num : Char) (label : String) (content : String) : Option String :=
  match findHeading num label.data content.data with
  | some (consumed, rest) => some ⟨consumed ++ takeToDigitDot rest⟩
  | none => none

/-- `content.match(/(?:4\.\s*LABEL|LABEL)[\s\S]*?$/i)`: the section runs to the
end of the text. -/
def sectionMatchToEnd (num : Char) (label : String) (content : String) :
    Option String :=
  match findHeading num label.data content.data with
  | some (consumed, rest) => some ⟨consumed ++ rest⟩
  | none => none

/-- `line.match(/^\d+\./)` viewed as a Bool: one or more digits then a dot. -/
def startsOrd (l : List Char) : Bool :=
  l.takeWhile isJsDigit ≠ [] && (l.dropWhile isJsDigit).head? = some '.'

/-- `line.replace(/^[-•]\s*/, '').replace(/^\d+\.\s*/, '')`. -/
def stripBullet (l : List Char) : List Char :=
  let l1 :=
    match l with
    | c :: rest => if c = '-' || c = '•' then rest.dropWhile isJsSpace else l
    | [] => l
  if startsOrd l1 then ((l1.dropWhile isJsDigit).drop 1).dropWhile isJsSpace
  else l1

/-- `FeedbackService.extractBulletPoints`: split into lines, trim each, keep
lines starting with `-`, `•`, or an ordinal-dot prefix, strip the markers. -/
def extractBulletPoints (text : String) : List String :=
  let lines := (splitLines text.data).map trimChars
  let kept := lines.filter fun l =>
    l.head? = some '-' || l.head? = some '•' || startsOrd l
  let out := kept.map fun l => (⟨stripBullet l⟩ : String)
  if out.length > 0 then out else []

/-- The four optional parsed sections returned by `parseFeedbackContent`. -/
structure ParsedFeedback where
  strengths : Option (List String)
  improvements : Option (List String)
  missingPts : Option (List String)
  frameworks : Option (List String)
deriving DecidableEq, Repr

/-- `FeedbackService.parseFeedbackContent`: locate each of the four labeled
sections with its regex and extract bullet points; a section whose heading is
not found stays absent. -/
def parseFeedbackContent (content : String) : ParsedFeedback :=
  { strengths := (sectionMatch '1' "STRENGTHS" content).map extractBulletPoints
    improvements :=
      (sectionMatch '2' "AREAS FOR IMPROVEMENT" content).map extractBulletPoints
    missingPts :=
      (sectionMatch '3' "MISSING CONSIDERATIONS" content).map extractBulletPoints
    frameworks :=
      (sectionMatchToEnd '4' "FRAMEWORK SUGGESTIONS" content).map extractBulletPoints }

/-! ## feedbackService.ts — data model and store state -/

/-- `DAILY_LIMIT` from `lib/feedbackService.ts`. -/
def DAILY_LIMIT : Nat := 3

/-- One `dailyLimits/{userId}_{date}` document. -/
structure DailyLimitRec where
  userId : String
  date : String
  requestCount : Nat
deriving DecidableEq, Repr

/-- One `aiFeedback` document (fields written by `generateFeedback`). -/
structure AIFeedback where
  id : String
  answerId : String
  userId : String
  questionId : String
  questionTitle : String
  userAnswer : String
  content : String
  parsed : ParsedFeedback
deriving DecidableEq, Repr

/-- The Firestore state touched by the pipeline: the `aiFeedback` collection
(in creation order) and the `dailyLimits` collection. -/
structure Store where
  aiFeedback : List AIFeedback
  dailyLimits : List DailyLimitRec
deriving DecidableEq, Repr

/-- `getFeedbackForAnswer`: query `aiFeedback` by `answerId` with limit 1. -/
def getFeedbackForAnswer (s : Store) (answerId : String) : Option AIFeedback :=
  s.aiFeedback.find? fun f => f.answerId = answerId

/-- Read of the `dailyLimits/{userId}_{today}` document. -/
def lookupDailyLimit (s : Store) (userId today : String) : Option DailyLimitRec :=
  s.dailyLimits.find? fun d => d.userId = userId && d.date = today

/-- `FeedbackStats` as returned by `getUserDailyStats`. -/
structure FeedbackStats where
  totalRequests : Nat
  remainingToday : Int
deriving DecidableEq, Repr

/-- `getUserDailyStats`: admins get 999 remaining without any read; otherwise
the `dailyLimits` read is performed — `Except.error` models the store being
unreachable, and the surrounding `catch` falls back to the full default quota. -/
def getUserDailyStats (userEmail : Option String)
    (read : Except Unit (Option DailyLimitRec)) : FeedbackStats :=
  if isUserAdmin userEmail then
    { totalRequests := 0, remainingToday := 999 }
  else
    match read with
    | Except.ok (some d) =>
      { totalRequests := d.requestCount
        remainingToday := max 0 ((DAILY_LIMIT : Int) - d.requestCount) }
    | Except.ok none =>
      { totalRequests := 0, remainingToday := (DAILY_LIMIT : Int) }
    | Except.error _ =>
      { totalRequests := 0, remainingToday := (DAILY_LIMIT : Int) }

/-- The quota-exceeded message thrown by `generateFeedback`, built from
`canRequestFeedback`'s message template with `DAILY_LIMIT` interpolated. -/
def quotaMessage (lim : Nat) : String :=
  "You\x27ve reached your daily limit of " ++ toString lim ++
    " AI feedback requests. Limit resets at midnight."

/-- Result shape of `canRequestFeedback`. -/
structure CanRequest where
  allowed : Bool
  remaining : Int
  message : Option String
deriving DecidableEq, Repr

/-- `canRequestFeedback`: admins always allowed; otherwise allowed iff the
daily stats report a positive remaining count. -/
def canRequestFeedback (userEmail : Option String)
    (read : Except Unit (Option DailyLimitRec)) : CanRequest :=
  if isUserAdmin userEmail then
    { allowed := true, remaining := 999, message := none }
  else
    let stats := getUserDailyStats userEmail read
    if stats.remainingToday ≤ 0 then
      { allowed := false, remaining := 0, message := some (quotaMessage DAILY_LIMIT) }
    else
      { allowed := true, remaining := stats.remainingToday, message := none }

/-- `incrementDailyCount`: read the `dailyLimits` document for
`{userId}_{today}`; update `requestCount + 1` if it exists, otherwise create
it with `requestCount = 1`. -/
def incrementDailyCount (s : Store) (userId today : String) : Store :=
  match lookupDailyLimit s userId today with
  | some _ =>
    { s with
      dailyLimits := s.dailyLimits.map fun d =>
        if d.userId = userId && d.date = today then
          { d with requestCount := d.requestCount + 1 }
        else d }
  | none =>
    { s with
      dailyLimits :=
        s.dailyLimits ++ [{ userId := userId, date := today, requestCount := 1 }] }

/-- The errors `generateFeedback` can throw. -/
inductive FbError where
  | quotaExceeded (message : String)
  | tooShort (message : String)
  | generationFailed (message : String)
deriving DecidableEq, Repr

/-- The fixed validation message for a too-short answer. -/
def tooShortMessage : String :=
  "Your answer is too short. Please provide a detailed response (at least 50 characters) for meaningful AI feedback."

/-- The body of `generateFeedback` after the idempotency check misses:
rate-limit check, length validation, model call, parse, conditional quota
increment, persist. The Gemini call's outcome is the `model` parameter;
`newId` is the id Firestore assigns to the created document. -/
def generateFeedbackFresh (s : Store) (answerId userId : String)
    (userEmail : Option String) (questionId questionTitle : String)
    (userAnswer today newId : String) (model : Except String String) :
    Except FbError AIFeedback × Store :=
  let canReq := canRequestFeedback userEmail (Except.ok (lookupDailyLimit s userId today))
  if !canReq.allowed then
    (Except.error (FbError.quotaExceeded (canReq.message.getD "Rate limit exceeded")), s)
  else if (jsTrim userAnswer).length < 50 then
    (Except.error (FbError.tooShort tooShortMessage), s)
  else
    match model with
    | Except.error e => (Except.error (FbError.generationFailed e), s)
    | Except.ok content =>
      let parsed := parseFeedbackContent content
      let s1 := if isUserAdmin userEmail then s else incrementDailyCount s userId today
      let newFeedback : AIFeedback :=
        { id := newId, answerId := answerId, userId := userId
          questionId := questionId, questionTitle := questionTitle
          userAnswer := userAnswer, content := content, parsed := parsed }
      (Except.ok newFeedback, { s1 with aiFeedback := s1.aiFeedback ++ [newFeedback] })

/-- `FeedbackService.generateFeedback`: return the stored record if one exists
for `answerId`, otherwise run the generate-and-store sequence. The
`questionDescription` argument only feeds the model prompt, which is abstracted
into `model`. -/
def generateFeedback (s : Store) (answerId userId : String)
    (userEmail : Option String)
    (questionId questionTitle _questionDescription : String)
    (userAnswer today newId : String) (model : Except String String) :
    Except FbError AIFeedback × Store :=
  match getFeedbackForAnswer s answerId with
  | some existing => (Except.ok existing, s)
  | none =>
    generateFeedbackFresh s answerId userId userEmail questionId questionTitle
      userAnswer today newId model

/-! ## pages/api/similar-cases.ts -/

/-- Metadata stored with each vector in the index. -/
structure VMeta where
  questionId : String
  title : String
  description : String
  caseType : String
  difficulty : String
  totalAnswers : Option Nat
  avgUpvotes : Option Nat
deriving DecidableEq, Repr

/-- One ranked match returned by the vector index query. -/
structure VMatch where
  id : String
  score : Int
  metadata : VMeta
deriving DecidableEq, Repr

/-- The `SimilarCase` shape returned to the client. -/
structure SimilarCase where
  questionId : String
  title : String
  description : String
  caseType : String
  difficulty : String
  similarity : Int
  totalAnswers : Nat
  avgUpvotes : Nat
deriving DecidableEq, Repr

/-- The per-match mapping in the handler (`match.metadata.totalAnswers || 0`). -/
def toSimilarCase (m : VMatch) : SimilarCase :=
  { questionId := m.metadata.questionId, title := m.metadata.title
    description := m.metadata.description, caseType := m.metadata.caseType
    difficulty := m.metadata.difficulty, similarity := m.score
    totalAnswers := m.metadata.totalAnswers.getD 0
    avgUpvotes := m.metadata.avgUpvotes.getD 0 }

/-- `index.query({vector, topK, includeMetadata})`: the index's full ranking is
`ranked`; the query returns its first `k` entries. -/
def queryIndex (ranked : List VMatch) (k : Nat) : List VMatch :=
  ranked.take k

/-- The result computation of the `similar-cases` API handler: over-fetch
`topK + 1` neighbors, drop the queried case itself, truncate to `topK`, map. -/
def similarCasesHandler (ranked : List VMatch) (questionId : String)
    (topK : Nat) : List SimilarCase :=
  ((((queryIndex ranked (topK + 1)).filter fun m => m.id ≠ questionId).take topK).map
    toSimilarCase)

/-! ## lib/vectordb.ts — VectorDBService.findSimilarCases -/

/-- Outcome of the `fetch('/api/similar-cases', ...)` call as observed by the
client: a network failure, or a response with its `ok` flag, status, and the
parsed `similarCases` field of the JSON body (`none` when the body has none). -/
inductive FetchOutcome where
  | netFailure
  | response (ok : Bool) (status : Nat) (body : Option (List SimilarCase))
deriving DecidableEq, Repr

/-- The body of the `try` block in `findSimilarCases`: a network failure or a
non-ok status throws, and so does reading `data.similarCases.length` when the
body lacks the field. -/
def findSimilarCasesTry : FetchOutcome → Except String (List SimilarCase)
  | FetchOutcome.netFailure => Except.error "fetch failed"
  | FetchOutcome.response false status _ =>
    Except.error ("API error: " ++ toString status)
  | FetchOutcome.response true _ none =>
    Except.error "TypeError: cannot read properties of undefined"
  | FetchOutcome.response true _ (some cases) => Except.ok cases

/-- `VectorDBService.findSimilarCases`: the `catch` converts every failure of
the `try` body into an empty result. -/
def findSimilarCases (o : FetchOutcome) : List SimilarCase :=
  match findSimilarCasesTry o with
  | Except.ok cases => cases
  | Except.error _ => []

/-- `true` when the outcome makes the `try` body of `findSimilarCases` throw. -/
def fetchFailed (o : FetchOutcome) : Bool :=
  match o with
  | FetchOutcome.response true _ (some _) => false
  | _ => true

/-! ## components/SimilarCases.tsx — fetchSimilarCases cache layering -/

/-- `CACHE_DURATION = 24 * 60 * 60 * 1000`. -/
def CACHE_DURATION : Int := 24 * 60 * 60 * 1000

/-- One cache entry `{ data, timestamp }` (both the in-memory map entry and
the localStorage entry have this shape). -/
structure CacheEntry where
  data : List SimilarCase
  timestamp : Int
deriving DecidableEq, Repr

/-- What the component ends up showing for this case. -/
inductive FetchShown where
  | displayed (cases : List SimilarCase)
  | errorShown (message : String)
deriving DecidableEq, Repr

/-- The error message set when no usable cache entry exists on failure. -/
def similarCasesErrorMessage : String :=
  "Failed to load similar cases. Please try again later."

/-- State after a `fetchSimilarCases` run: what was shown, plus the updated
in-memory and localStorage entries for this `questionId`. -/
structure FetchRun where
  shown : FetchShown
  mem : Option CacheEntry
  localTier : Option CacheEntry
deriving DecidableEq, Repr

/-- The remote-call-and-fallback part of `fetchSimilarCases` (the code that
runs after the in-memory check misses), as the `try`/`catch` is written:
`remote` is the hypothetical settlement of the awaited call — `Except.ok` when
it resolves (both tiers repopulated with the fresh timestamp), `Except.error`
when it rejects (then the localStorage entry is used only when it is within
`CACHE_DURATION`, and the error message is shown otherwise). In the program
the awaited call is `vectorDBService.findSimilarCases`, which never rejects
(it resolves `[]` on every failure), so the `Except.error` branch is not
reachable through a remote failure; `fetchSimilarCasesRun` below is the
composition the program actually runs. -/
def fetchSimilarCasesRemote (mem localTier : Option CacheEntry) (now : Int)
    (remote : Except Unit (List SimilarCase)) : FetchRun :=
  match remote with
  | Except.ok similar =>
    { shown := FetchShown.displayed similar
      mem := some { data := similar, timestamp := now }
      localTier := some { data := similar, timestamp := now } }
  | Except.error _ =>
    match localTier with
    | some cached =>
      if now - cached.timestamp < CACHE_DURATION then
        { shown := FetchShown.displayed cached.data, mem := mem, localTier := localTier }
      else
        { shown := FetchShown.errorShown similarCasesErrorMessage
          mem := mem, localTier := localTier }
    | none =>
      { shown := FetchShown.errorShown similarCasesErrorMessage
        mem := mem, localTier := localTier }

/-- `fetchSimilarCases` from `SimilarCases.tsx` for one `questionId`:
fresh in-memory hit short-circuits; otherwise the remote call is awaited and
`fetchSimilarCasesRemote` finishes the run with its settlement `remote`. -/
def fetchSimilarCases (mem localTier : Option CacheEntry) (now : Int)
    (remote : Except Unit (List SimilarCase)) : FetchRun :=
  match mem with
  | some cached =>
    if now - cached.timestamp < CACHE_DURATION then
      { shown := FetchShown.displayed cached.data, mem := mem, localTier := localTier }
    else
      fetchSimilarCasesRemote mem localTier now remote
  | none => fetchSimilarCasesRemote mem localTier now remote

/-- The composed run the program performs: the awaited call inside
`fetchSimilarCases` is `vectorDBService.findSimilarCases`, which always
resolves — with `findSimilarCases o` for the underlying fetch outcome `o`
(the empty list on every failure). -/
def fetchSimilarCasesRun (mem localTier : Option CacheEntry) (now : Int)
    (o : FetchOutcome) : FetchRun :=
  fetchSimilarCases mem localTier now (Except.ok (findSimilarCases o))

/-! ## AdminVectorDB — the two indexAllCases variants

Each item of the input list is the outcome of the awaited
`vectorDBService.indexCase` call for one question, in corpus order. -/

/-- Result of the `components/AdminVectorDB.tsx` run: whether the batch
finished with status `success`, and how many items were attempted. -/
structure ComponentRun where
  ok : Bool
  attempted : Nat
deriving DecidableEq, Repr

/-- `indexAllCases` from `src/components/AdminVectorDB.tsx`: the loop body is
not guarded per item, so the first failing `indexCase` escapes to the outer
`catch` and ends the run with an error status. -/
def indexAllCasesComponent : List (Except Unit Unit) → ComponentRun
  | [] => { ok := true, attempted := 0 }
  | Except.ok _ :: rest =>
    let r := indexAllCasesComponent rest
    { ok := r.ok, attempted := r.attempted + 1 }
  | Except.error _ :: _ => { ok := false, attempted := 1 }

/-- `indexAllCases` from the client-side variant (appended in
`src/types/index.ts`): each item is wrapped in its own `try`/`catch`, so the
loop continues past failures, counting successes and failures. -/
def indexAllCasesClientSide : List (Except Unit Unit) → Nat × Nat
  | [] => (0, 0)
  | Except.ok _ :: rest =>
    let r := indexAllCasesClientSide rest
    (r.1 + 1, r.2)
  | Except.error _ :: rest =>
    let r := indexAllCasesClientSide rest
    (r.1, r.2 + 1)

/-! ## Theorems -/

/-- The concrete parser input of the section-isolation property: the four
expected headings in canonical order, dash bullets `- A`, `- B` under
STRENGTHS and the ordinal bullet `1. C` under AREAS FOR IMPROVEMENT. -/
def parserIsolationInput : String :=
  "STRENGTHS\n- A\n- B\nAREAS FOR IMPROVEMENT\n1. C\nMISSING CONSIDERATIONS\nFRAMEWORK SUGGESTIONS"

/-- C5 counterexample: on the input with `- A`, `- B` under STRENGTHS and
`1. C` under AREAS FOR IMPROVEMENT, the parser does not return
`improvements = ["C"]` — the section-end pattern `(?=\d\.)` treats the ordinal
bullet `1. C` as the start of the next numbered section, so the AREAS FOR
IMPROVEMENT section ends before its own bullet. -/
theorem c5_parser_section_isolation_counterexample :
    ¬ ((parseFeedbackContent parserIsolationInput).strengths = some ["A", "B"] ∧
       (parseFeedbackContent parserIsolationInput).improvements = some ["C"]) := by
  decide

/-- C5 amended: on that input the parser returns `strengths = ["A", "B"]`
(dash bullets are extracted and stripped, the bare heading lines are not
emitted as bullets), but `improvements = []`: an ordinal-dot line acts as a
section boundary rather than as a bullet of its section. -/
theorem c5_parser_section_isolation :
    parseFeedbackContent parserIsolationInput =
      { strengths := some ["A", "B"], improvements := some []
        missingPts := some [], frameworks := some [] } := by
  decide

/-- C6: if the `dailyLimits` read throws for a non-admin user, the error is
swallowed and the stats report zero used and the full `DAILY_LIMIT` remaining,
so the quota check still allows the request (fail-open). -/
theorem c6_quota_read_fails_open (userEmail : Option String)
    (hadmin : isUserAdmin userEmail = false) :
    getUserDailyStats userEmail (Except.error ()) =
      { totalRequests := 0, remainingToday := (DAILY_LIMIT : Int) } ∧
    (canRequestFeedback userEmail (Except.error ())).allowed = true := by
  constructor
  · unfold getUserDailyStats
    rw [hadmin]
    simp
  · unfold canRequestFeedback getUserDailyStats
    rw [hadmin]
    simp [DAILY_LIMIT]

/-- C6 witness: a concrete non-admin user with an unreachable store. -/
theorem c6_quota_read_fails_open_witness :
    getUserDailyStats (some "student@example.com") (Except.error ()) =
      { totalRequests := 0, remainingToday := (DAILY_LIMIT : Int) } ∧
    (canRequestFeedback (some "student@example.com") (Except.error ())).allowed = true :=
  c6_quota_read_fails_open (some "student@example.com") (by decide)

/-- C7: the similar-cases handler returns at most `topK` entries, and — as
long as every indexed vector stores its own id as `metadata.questionId` — no
returned entry refers to the queried case, for every index ranking (in
particular when the queried case is ranked first). -/
theorem c7_self_exclusion_and_truncation (ranked : List VMatch)
    (questionId : String) (topK : Nat)
    (hmeta : ∀ m ∈ ranked, m.metadata.questionId = m.id) :
    (similarCasesHandler ranked questionId topK).length ≤ topK ∧
    ∀ e ∈ similarCasesHandler ranked questionId topK, e.questionId ≠ questionId := by
  constructor
  · unfold similarCasesHandler
    rw [List.length_map, List.length_take]
    exact min_le_left _ _
  · intro e he
    unfold similarCasesHandler at he
    rw [List.mem_map] at he
    obtain ⟨m, hm, rfl⟩ := he
    have hm2 := List.mem_of_mem_take hm
    rw [List.mem_filter] at hm2
    obtain ⟨hmq, hneq⟩ := hm2
    have hmr : m ∈ ranked := List.mem_of_mem_take hmq
    have hq : (toSimilarCase m).questionId = m.metadata.questionId := rfl
    rw [hq, hmeta m hmr]
    simpa using hneq

/-- C7 witness: the queried case ranked first by the index; with `topK = 1`
the result is the best other case only. -/
theorem c7_self_exclusion_and_truncation_witness :
    (similarCasesHandler
        [⟨"case-1", 100, ⟨"case-1", "t1", "d1", "consulting", "easy", none, none⟩⟩,
         ⟨"case-2", 90, ⟨"case-2", "t2", "d2", "consulting", "easy", none, none⟩⟩,
         ⟨"case-3", 80, ⟨"case-3", "t3", "d3", "product", "hard", none, none⟩⟩]
        "case-1" 1).length ≤ 1 ∧
    ∀ e ∈ similarCasesHandler
        [⟨"case-1", 100, ⟨"case-1", "t1", "d1", "consulting", "easy", none, none⟩⟩,
         ⟨"case-2", 90, ⟨"case-2", "t2", "d2", "consulting", "easy", none, none⟩⟩,
         ⟨"case-3", 80, ⟨"case-3", "t3", "d3", "product", "hard", none, none⟩⟩]
        "case-1" 1, e.questionId ≠ "case-1" :=
  c7_self_exclusion_and_truncation _ "case-1" 1 (by decide)

/-- C9 counterexample: in the `components/AdminVectorDB.tsx` run, one failing
item ends the batch — with a failure at the first of two items, only one item
is ever attempted and the run finishes in the error state, reporting no
aggregate counts. -/
theorem c9_component_abort_counterexample :
    (indexAllCasesComponent [Except.error (), Except.ok ()]).attempted ≠
      ([Except.error (), Except.ok ()] : List (Except Unit Unit)).length ∧
    (indexAllCasesComponent [Except.error (), Except.ok ()]).ok = false := by
  decide

/-- C9 amended: the client-side `indexAllCases` variant tolerates per-item
failure — it counts each item as a success or a failure, continues, and its
two counts always sum to the corpus size. -/
theorem c9_client_side_counts (items : List (Except Unit Unit)) :
    (indexAllCasesClientSide items).1 = (items.countP fun i => i.isOk) ∧
    (indexAllCasesClientSide items).2 = (items.countP fun i => !i.isOk) ∧
    (indexAllCasesClientSide items).1 + (indexAllCasesClientSide items).2 =
      items.length := by
  have hfst : ∀ l : List (Except Unit Unit),
      (indexAllCasesClientSide l).1 = l.countP fun i => i.isOk := by
    intro l
    induction l with
    | nil => rfl
    | cons head tail ih =>
      cases head with
      | ok v =>
        simp [indexAllCasesClientSide, List.countP_cons, ih, Except.isOk, Except.toBool]
      | error v =>
        simp [indexAllCasesClientSide, List.countP_cons, ih, Except.isOk, Except.toBool]
  have hsnd : ∀ l : List (Except Unit Unit),
      (indexAllCasesClientSide l).2 = l.countP fun i => !i.isOk := by
    intro l
    induction l with
    | nil => rfl
    | cons head tail ih =>
      cases head with
      | ok v =>
        simp [indexAllCasesClientSide, List.countP_cons, ih, Except.isOk, Except.toBool]
      | error v =>
        simp [indexAllCasesClientSide, List.countP_cons, ih, Except.isOk, Except.toBool]
  have hsum : ∀ l : List (Except Unit Unit),
      (indexAllCasesClientSide l).1 + (indexAllCasesClientSide l).2 = l.length := by
    intro l
    induction l with
    | nil => rfl
    | cons head tail ih =>
      cases head with
      | ok v =>
        simp only [indexAllCasesClientSide, List.length_cons]
        omega
      | error v =>
        simp only [indexAllCasesClientSide, List.length_cons]
        omega
  exact ⟨hfst items, hsnd items, hsum items⟩

/-- C10: `VectorDBService.findSimilarCases` is total and maps every failing
fetch outcome (network error, non-ok status, body without `similarCases`) to
the empty list — exactly the value of a successful empty search, so callers
cannot distinguish failure from no results. -/
theorem c10_find_similar_cases_swallows_failures (o : FetchOutcome) :
    (fetchFailed o = true → findSimilarCases o = []) ∧
    findSimilarCases FetchOutcome.netFailure =
      findSimilarCases (FetchOutcome.response true 200 (some [])) := by
  refine ⟨?_, rfl⟩
  intro h
  cases o with
  | netFailure => rfl
  | response ok status body =>
    cases ok <;> cases body <;> first
      | rfl
      | (exfalso; simp [fetchFailed] at h)

/-- C10 witness: a concrete failing outcome (HTTP 500) yields the empty list. -/
theorem c10_find_similar_cases_swallows_failures_witness :
    fetchFailed (FetchOutcome.response false 500 none) = true ∧
    findSimilarCases (FetchOutcome.response false 500 none) = [] :=
  ⟨by decide,
   (c10_find_similar_cases_swallows_failures
      (FetchOutcome.response false 500 none)).1 (by decide)⟩

/-- A concrete similar-case value for the stale-cache scenario. -/
def staleDemoCase : SimilarCase :=
  { questionId := "case-2", title := "t", description := "d"
    caseType := "consulting", difficulty := "easy", similarity := 90
    totalAnswers := 0, avgUpvotes := 0 }

/-- A failing fetch outcome makes `findSimilarCases` resolve the empty list
(the `catch` in `lib/vectordb.ts` swallows the failure). -/
theorem findSimilarCases_of_failed (o : FetchOutcome) (h : fetchFailed o = true) :
    findSimilarCases o = [] := by
  cases o with
  | netFailure => rfl
  | response ok status body =>
    cases ok <;> cases body <;> first
      | rfl
      | (exfalso; simp [fetchFailed] at h)

/-- C8 counterexample: with no in-memory entry, a localStorage entry exactly
`CACHE_DURATION` old, and a failing remote search (HTTP 500), the composed run
displays the empty list and overwrites both cache tiers with a fresh empty
entry — the stale entry is not returned (and no error is surfaced either):
the awaited `findSimilarCases` resolves `[]` on failure, so the run takes the
success path of `fetchSimilarCases`. -/
theorem c8_stale_fallback_counterexample :
    fetchSimilarCasesRun none (some { data := [staleDemoCase], timestamp := 0 })
        86400000 (FetchOutcome.response false 500 none) =
      { shown := FetchShown.displayed []
        mem := some { data := [], timestamp := 86400000 }
        localTier := some { data := [], timestamp := 86400000 } } ∧
    FetchShown.displayed ([] : List SimilarCase) ≠
      FetchShown.displayed [staleDemoCase] := by
  decide

/-- C8 amended: when the remote similarity call fails, the awaited
`VectorDBService.findSimilarCases` swallows the failure and resolves the empty
list, so `fetchSimilarCases` (on any in-memory miss, fresh entries excepted)
treats it as a successful empty search: the empty list is displayed and both
cache tiers are overwritten with a fresh empty entry, whatever the durable
tier held — a stale durable entry is neither returned nor kept, and no
user-visible error is surfaced; the `catch`/TTL-fallback code of
`fetchSimilarCases` is unreachable through a remote failure. -/
theorem c8_remote_failure_displays_empty (mem localTier : Option CacheEntry)
    (now : Int) (o : FetchOutcome)
    (hmem : ∀ cached, mem = some cached → CACHE_DURATION ≤ now - cached.timestamp)
    (hfail : fetchFailed o = true) :
    fetchSimilarCasesRun mem localTier now o =
      { shown := FetchShown.displayed []
        mem := some { data := [], timestamp := now }
        localTier := some { data := [], timestamp := now } } := by
  have hnil : findSimilarCases o = [] := findSimilarCases_of_failed o hfail
  unfold fetchSimilarCasesRun
  rw [hnil]
  cases mem with
  | none => rfl
  | some cached =>
    have hst := hmem cached rfl
    dsimp only [fetchSimilarCases]
    rw [if_neg (not_lt.mpr hst)]
    rfl

/-- C8 witness: a network failure with a day-old entry in both tiers — the
run shows the empty list and replaces both entries. -/
theorem c8_remote_failure_displays_empty_witness :
    fetchSimilarCasesRun (some { data := [staleDemoCase], timestamp := 0 })
        (some { data := [staleDemoCase], timestamp := 0 }) 86400000
        FetchOutcome.netFailure =
      { shown := FetchShown.displayed []
        mem := some { data := [], timestamp := 86400000 }
        localTier := some { data := [], timestamp := 86400000 } } :=
  c8_remote_failure_displays_empty
    (some { data := [staleDemoCase], timestamp := 0 })
    (some { data := [staleDemoCase], timestamp := 0 }) 86400000
    FetchOutcome.netFailure
    (fun cached hc => by cases hc; decide) (by decide)

/-- C2: for a non-admin user whose stored `requestCount` for today equals
`DAILY_LIMIT`, the quota check reports not-allowed, and (absent an existing
record for the answer) `generateFeedback` fails with the quota-exceeded error
carrying the configured limit, for every model outcome, leaving the store
unchanged. -/
theorem c2_quota_enforced_at_limit (s : Store) (answerId userId : String)
    (userEmail : Option String)
    (questionId questionTitle questionDescription userAnswer today newId : String)
    (model : Except String String) (d : DailyLimitRec)
    (hadmin : isUserAdmin userEmail = false)
    (hnone : getFeedbackForAnswer s answerId = none)
    (hd : lookupDailyLimit s userId today = some d)
    (hcount : d.requestCount = DAILY_LIMIT) :
    (canRequestFeedback userEmail (Except.ok (some d))).allowed = false ∧
    generateFeedback s answerId userId userEmail questionId questionTitle
        questionDescription userAnswer today newId model =
      (Except.error (FbError.quotaExceeded (quotaMessage DAILY_LIMIT)), s) := by
  have hcan : canRequestFeedback userEmail (Except.ok (some d)) =
      { allowed := false, remaining := 0, message := some (quotaMessage DAILY_LIMIT) } := by
    simp [canRequestFeedback, getUserDailyStats, hadmin, hcount, DAILY_LIMIT]
  refine ⟨by rw [hcan], ?_⟩
  unfold generateFeedback
  rw [hnone]
  simp only [generateFeedbackFresh]
  rw [hd, hcan]
  simp

/-- C2 witness: a concrete non-admin user with three requests recorded today
and no record for the answer. -/
theorem c2_quota_enforced_at_limit_witness :
    (canRequestFeedback (some "student@example.com")
        (Except.ok (some { userId := "u1", date := "2024-06-01", requestCount := 3 }))).allowed
      = false ∧
    generateFeedback { aiFeedback := [], dailyLimits := [{ userId := "u1", date := "2024-06-01", requestCount := 3 }] }
        "a1" "u1" (some "student@example.com") "q1" "Title" "Desc"
        "A long and thoughtful answer, certainly above the threshold." "2024-06-01" "f1"
        (Except.ok "model output") =
      (Except.error (FbError.quotaExceeded (quotaMessage DAILY_LIMIT)),
        { aiFeedback := [], dailyLimits := [{ userId := "u1", date := "2024-06-01", requestCount := 3 }] }) :=
  c2_quota_enforced_at_limit _ "a1" "u1" _ "q1" "Title" "Desc"
    "A long and thoughtful answer, certainly above the threshold." "2024-06-01" "f1"
    (Except.ok "model output") { userId := "u1", date := "2024-06-01", requestCount := 3 }
    (by decide) (by decide) (by decide) (by decide)

/-- C3: when the model call throws, the store is never modified (for every
input state), and when the pipeline actually reaches the model call (no
existing record, quota allowed, validation passed) the error is propagated as
the generation failure with the same underlying state returned. -/
theorem c3_no_state_change_on_generation_failure (s : Store)
    (answerId userId : String) (userEmail : Option String)
    (questionId questionTitle questionDescription userAnswer today newId : String)
    (e : String) :
    (generateFeedback s answerId userId userEmail questionId questionTitle
        questionDescription userAnswer today newId (Except.error e)).2 = s ∧
    (getFeedbackForAnswer s answerId = none →
      (canRequestFeedback userEmail
          (Except.ok (lookupDailyLimit s userId today))).allowed = true →
      50 ≤ (jsTrim userAnswer).length →
      generateFeedback s answerId userId userEmail questionId questionTitle
          questionDescription userAnswer today newId (Except.error e) =
        (Except.error (FbError.generationFailed e), s)) := by
  constructor
  · unfold generateFeedback
    cases hfa : getFeedbackForAnswer s answerId with
    | some r => rfl
    | none =>
      simp only [generateFeedbackFresh]
      split
      · rfl
      · split
        · rfl
        · rfl
  · intro h1 h2 h3
    unfold generateFeedback
    rw [h1]
    simp only [generateFeedbackFresh]
    rw [if_neg (by simp [h2]), if_neg (by omega : ¬ (jsTrim userAnswer).length < 50)]

/-- C3 witness: a concrete reachable-model-call state where the model throws. -/
theorem c3_no_state_change_on_generation_failure_witness :
    (generateFeedback { aiFeedback := [], dailyLimits := [] } "a1" "u1"
        (some "student@example.com") "q1" "Title" "Desc"
        "A long and thoughtful answer, certainly above the threshold." "2024-06-01" "f1"
        (Except.error "Failed to generate feedback")).2 =
      { aiFeedback := [], dailyLimits := [] } ∧
    generateFeedback { aiFeedback := [], dailyLimits := [] } "a1" "u1"
        (some "student@example.com") "q1" "Title" "Desc"
        "A long and thoughtful answer, certainly above the threshold." "2024-06-01" "f1"
        (Except.error "Failed to generate feedback") =
      (Except.error (FbError.generationFailed "Failed to generate feedback"),
        { aiFeedback := [], dailyLimits := [] }) :=
  ⟨(c3_no_state_change_on_generation_failure { aiFeedback := [], dailyLimits := [] }
      "a1" "u1" (some "student@example.com") "q1" "Title" "Desc"
      "A long and thoughtful answer, certainly above the threshold." "2024-06-01" "f1"
      "Failed to generate feedback").1,
   (c3_no_state_change_on_generation_failure { aiFeedback := [], dailyLimits := [] }
      "a1" "u1" (some "student@example.com") "q1" "Title" "Desc"
      "A long and thoughtful answer, certainly above the threshold." "2024-06-01" "f1"
      "Failed to generate feedback").2 (by decide) (by decide) (by decide)⟩

/-- The store of the C4 counterexample: quota exhausted for user `u1` today,
no feedback records. -/
def c4Store : Store :=
  { aiFeedback := []
    dailyLimits := [{ userId := "u1", date := "2024-06-01", requestCount := 3 }] }

/-- C4 counterexample: a nine-character answer from a quota-exhausted user
fails with the quota-exceeded error, not the validation error — the code
consults the quota tracker before validating the answer length. -/
theorem c4_short_answer_quota_counterexample :
    (jsTrim "too short").length < 50 ∧
    generateFeedback c4Store "a1" "u1" (some "student@example.com") "q1" "Title"
        "Desc" "too short" "2024-06-01" "f1" (Except.ok "model output") =
      (Except.error (FbError.quotaExceeded (quotaMessage DAILY_LIMIT)), c4Store) ∧
    FbError.quotaExceeded (quotaMessage DAILY_LIMIT) ≠ FbError.tooShort tooShortMessage :=
  ⟨by decide, rfl, by decide⟩

/-- C4 amended: the quota check precedes input validation. When no record
exists and the quota check allows the request, a trimmed answer shorter than
50 characters fails with the validation error for every model outcome, with
the store unchanged; when quota is exhausted the quota-exceeded error takes
precedence over the validation error. -/
theorem c4_validation_after_quota_check (s : Store) (answerId userId : String)
    (userEmail : Option String)
    (questionId questionTitle questionDescription userAnswer today newId : String)
    (model : Except String String)
    (hnone : getFeedbackForAnswer s answerId = none)
    (hallow : (canRequestFeedback userEmail
        (Except.ok (lookupDailyLimit s userId today))).allowed = true)
    (hshort : (jsTrim userAnswer).length < 50) :
    generateFeedback s answerId userId userEmail questionId questionTitle
        questionDescription userAnswer today newId model =
      (Except.error (FbError.tooShort tooShortMessage), s) := by
  unfold generateFeedback
  rw [hnone]
  simp only [generateFeedbackFresh]
  rw [if_neg (by simp [hallow]), if_pos hshort]

/-- C4 witness for the amended claim: a user with remaining quota and a
nine-character answer gets the validation error. -/
theorem c4_validation_after_quota_check_witness :
    generateFeedback { aiFeedback := [], dailyLimits := [] } "a1" "u1"
        (some "student@example.com") "q1" "Title" "Desc" "too short" "2024-06-01" "f1"
        (Except.ok "model output") =
      (Except.error (FbError.tooShort tooShortMessage),
        { aiFeedback := [], dailyLimits := [] }) :=
  c4_validation_after_quota_check { aiFeedback := [], dailyLimits := [] } "a1" "u1"
    (some "student@example.com") "q1" "Title" "Desc" "too short" "2024-06-01" "f1"
    (Except.ok "model output") (by decide) (by decide) (by decide)

/-- `find?` skips a prefix in which nothing satisfies the predicate. -/
theorem find?_append_of_none {α : Type} (p : α → Bool) {l1 : List α} (l2 : List α)
    (h : l1.find? p = none) : (l1 ++ l2).find? p = l2.find? p := by
  induction l1 with
  | nil => rfl
  | cons a l ih =>
    rw [List.find?_cons] at h
    rw [List.cons_append, List.find?_cons]
    cases hpa : p a with
    | true => rw [hpa] at h; simp at h
    | false => rw [hpa] at h; exact ih h

/-- `incrementDailyCount` only touches the `dailyLimits` collection. -/
theorem incrementDailyCount_aiFeedback (s : Store) (userId today : String) :
    (incrementDailyCount s userId today).aiFeedback = s.aiFeedback := by
  unfold incrementDailyCount
  cases lookupDailyLimit s userId today <;> rfl

/-- C1: idempotency of `generateFeedback`. First conjunct: whenever a record
is already stored for `answerId`, the call returns it unchanged, for every
model outcome (no model call), with the store untouched (no quota consumption,
no second record). Second conjunct: starting from a state with no record for
`answerId`, a successful call followed by a second call for the same
`answerId` (any model outcome, any fresh id) returns the same record with the
store unchanged, and exactly one record for `answerId` is persisted. -/
theorem c1_generate_feedback_idempotent (s : Store) (answerId userId : String)
    (userEmail : Option String)
    (questionId questionTitle questionDescription userAnswer today newId : String) :
    (∀ (model : Except String String) (r : AIFeedback),
      getFeedbackForAnswer s answerId = some r →
      generateFeedback s answerId userId userEmail questionId questionTitle
          questionDescription userAnswer today newId model = (Except.ok r, s)) ∧
    (∀ (model : Except String String) (r : AIFeedback) (s' : Store)
        (model2 : Except String String) (newId2 : String),
      getFeedbackForAnswer s answerId = none →
      generateFeedback s answerId userId userEmail questionId questionTitle
          questionDescription userAnswer today newId model = (Except.ok r, s') →
      generateFeedback s' answerId userId userEmail questionId questionTitle
          questionDescription userAnswer today newId2 model2 = (Except.ok r, s') ∧
      (s'.aiFeedback.filter fun f => f.answerId = answerId).length = 1) := by
  constructor
  · intro model r h
    unfold generateFeedback
    rw [h]
  · intro model r s' model2 newId2 hnone hcall
    unfold generateFeedback at hcall
    rw [hnone] at hcall
    simp only [generateFeedbackFresh] at hcall
    cases hallow : (canRequestFeedback userEmail
        (Except.ok (lookupDailyLimit s userId today))).allowed with
    | false =>
      rw [if_pos (by rw [hallow]; rfl)] at hcall
      exact absurd (congrArg Prod.fst hcall) (by simp)
    | true =>
      rw [if_neg (by rw [hallow]; simp)] at hcall
      by_cases hshort : (jsTrim userAnswer).length < 50
      · rw [if_pos hshort] at hcall
        exact absurd (congrArg Prod.fst hcall) (by simp)
      · rw [if_neg hshort] at hcall
        cases model with
        | error e =>
          exact absurd (congrArg Prod.fst hcall) (by simp)
        | ok content =>
          have hrr :
              ({ id := newId, answerId := answerId, userId := userId,
                 questionId := questionId, questionTitle := questionTitle,
                 userAnswer := userAnswer, content := content,
                 parsed := parseFeedbackContent content } : AIFeedback) = r :=
            Except.ok.inj (congrArg Prod.fst hcall)
          have hsnd := congrArg Prod.snd hcall
          simp only at hsnd
          have hbase : (if isUserAdmin userEmail then s
              else incrementDailyCount s userId today).aiFeedback = s.aiFeedback := by
            cases isUserAdmin userEmail with
            | true => simp
            | false => simp [incrementDailyCount_aiFeedback]
          have hs' : s'.aiFeedback = s.aiFeedback ++ [r] := by
            rw [← hrr, ← hsnd]
            simpa using hbase
          have hr2 : r.answerId = answerId := by rw [← hrr]
          have hfind : getFeedbackForAnswer s' answerId = some r := by
            unfold getFeedbackForAnswer
            rw [hs', find?_append_of_none _ _ hnone]
            simp [hr2]
          constructor
          · unfold generateFeedback
            rw [hfind]
          · rw [hs', List.filter_append]
            have hleft : s.aiFeedback.filter (fun f => f.answerId = answerId) = [] := by
              rw [List.filter_eq_nil_iff]
              intro f hf
              have := List.find?_eq_none.mp hnone f hf
              simpa using this
            rw [hleft]
            simp [hr2]

/-- A stored feedback record used by the C1 witness. -/
def c1ExistingRecord : AIFeedback :=
  { id := "f0", answerId := "a1", userId := "u1", questionId := "q1",
    questionTitle := "Title", userAnswer := "prior answer", content := "raw",
    parsed := { strengths := none, improvements := none,
                missingPts := none, frameworks := none } }

/-- A store that already holds `c1ExistingRecord` for answer `a1`. -/
def c1StoreWith : Store :=
  { aiFeedback := [c1ExistingRecord], dailyLimits := [] }

/-- The answer text of the C1 witness run (longer than 50 characters). -/
def c1AnswerText : String :=
  "A long and thoughtful answer, certainly above the threshold."

/-- The record created by the C1 witness run on the empty store. -/
def c1NewRecord : AIFeedback :=
  { id := "f1", answerId := "a1", userId := "u1", questionId := "q1",
    questionTitle := "Title", userAnswer := c1AnswerText, content := "model output",
    parsed := { strengths := none, improvements := none,
                missingPts := none, frameworks := none } }

/-- The store after the C1 witness run on the empty store. -/
def c1StoreAfter : Store :=
  { aiFeedback := [c1NewRecord],
    dailyLimits := [{ userId := "u1", date := "2024-06-01", requestCount := 1 }] }

/-- C1 witness: a call on a store that already holds the record returns it
unchanged even with a failing model; and after a successful first call on the
empty store, a second call returns the same record, leaves the store alone,
and exactly one record for the answer is persisted. -/
theorem c1_generate_feedback_idempotent_witness :
    (generateFeedback c1StoreWith "a1" "u1" (some "student@example.com") "q1"
        "Title" "Desc" c1AnswerText "2024-06-01" "f9" (Except.error "down") =
      (Except.ok c1ExistingRecord, c1StoreWith)) ∧
    (generateFeedback c1StoreAfter "a1" "u1" (some "student@example.com") "q1"
        "Title" "Desc" c1AnswerText "2024-06-01" "f2" (Except.error "down") =
      (Except.ok c1NewRecord, c1StoreAfter) ∧
    (c1StoreAfter.aiFeedback.filter fun f => f.answerId = "a1").length = 1) :=
  ⟨(c1_generate_feedback_idempotent c1StoreWith "a1" "u1"
      (some "student@example.com") "q1" "Title" "Desc" c1AnswerText "2024-06-01"
      "f9").1 (Except.error "down") c1ExistingRecord rfl,
   (c1_generate_feedback_idempotent { aiFeedback := [], dailyLimits := [] } "a1"
      "u1" (some "student@example.com") "q1" "Title" "Desc" c1AnswerText
      "2024-06-01" "f1").2 (Except.ok "model output") c1NewRecord c1StoreAfter
      (Except.error "down") "f2" rfl rfl⟩

end CaseBuddy
